import Mathlib

/-!
Verification of the command-construction and transport contract of the
Trick Variable Server Connection C library
(src/src/trick_variable_server_connection.c).

The embedding models C strings as lists of characters (all wire text is
ASCII, so character count equals byte count).  The transport is modelled
as an oracle of type CStr to Int giving, for each byte string handed to
the socket send primitive, the value the primitive returns (number of
bytes written on success, a negative value on failure).  Each library
function returns the pair of its C return value and the list of byte
strings it handed to the transport (the recorded writes of a mock
transport).
-/

namespace TVS

/-- A C string, modelled as its list of characters (no terminating NUL). -/
abbrev CStr := List Char

/-- Conversion of a Lean string literal to the character-list model. -/
def str (s : String) : CStr := s.toList

/-- Model of strncpy(dst, src, n) into a fresh buffer of capacity n: the
    result holds the first n characters of src.  In the source every such
    call satisfies src length < n, so no truncation ever occurs there. -/
def strncpyFull (src : CStr) (n : Nat) : CStr := src.take n

/-- Model of strncat(dst, src, n): appends at most n characters of src to
    dst.  Every call in the source passes n = capacity - strlen(dst) - 1,
    which keeps the write inside the buffer. -/
def strncatM (dst src : CStr) (n : Nat) : CStr := dst ++ src.take n

/-- Embedding of send_command_to_variable_server (source lines 124-135):

    char cmd[512];
    if (sizeof(cmd) < strlen(command)+2) return -1;
    strncpy(cmd, command, sizeof(cmd));
    strncat(cmd, "\n", sizeof(cmd) - strlen(cmd) - 1);
    return send(socket, cmd, strlen(cmd), 0);

    The transport oracle tr stands for the send system call; the second
    component records the byte strings handed to it. -/
def send_command_to_variable_server (tr : CStr → Int) (command : CStr) :
    Int × List CStr :=
  if 512 < command.length + 2 then ((-1 : Int), [])
  else
    let cmd := strncpyFull command 512
    let cmd2 := strncatM cmd (str ("\n")) (512 - cmd.length - 1)
    (tr cmd2, [cmd2])

/-- Embedding of set_ascii (source lines 149-156): fixed command, result
    normalized to 0 on success and -1 on failure. -/
def set_ascii (tr : CStr → Int) : Int × List CStr :=
  let s := send_command_to_variable_server tr (str ("trick.var_ascii()"))
  (if s.1 < 0 then (-1 : Int) else 0, s.2)

/-- Embedding of set_binary (source lines 170-177). -/
def set_binary (tr : CStr → Int) : Int × List CStr :=
  let s := send_command_to_variable_server tr (str ("trick.var_binary()"))
  (if s.1 < 0 then (-1 : Int) else 0, s.2)

/-- Embedding of set_binary_no_names (source lines 192-199). -/
def set_binary_no_names (tr : CStr → Int) : Int × List CStr :=
  let s := send_command_to_variable_server tr (str ("trick.var_binary_nonames()"))
  (if s.1 < 0 then (-1 : Int) else 0, s.2)

/-- Embedding of set_sync (source lines 213-220). -/
def set_sync (tr : CStr → Int) : Int × List CStr :=
  let s := send_command_to_variable_server tr (str ("trick.var_sync(1)"))
  (if s.1 < 0 then (-1 : Int) else 0, s.2)

/-- Embedding of pause (source lines 234-241). -/
def pause (tr : CStr → Int) : Int × List CStr :=
  let s := send_command_to_variable_server tr (str ("trick.var_pause()"))
  (if s.1 < 0 then (-1 : Int) else 0, s.2)

/-- Embedding of unpause (source lines 255-262). -/
def unpause (tr : CStr → Int) : Int × List CStr :=
  let s := send_command_to_variable_server tr (str ("trick.var_unpause()"))
  (if s.1 < 0 then (-1 : Int) else 0, s.2)

/-- Embedding of clear (source lines 389-396). -/
def clear (tr : CStr → Int) : Int × List CStr :=
  let s := send_command_to_variable_server tr (str ("trick.var_clear()"))
  (if s.1 < 0 then (-1 : Int) else 0, s.2)

/-- Embedding of poll (source lines 489-496). -/
def poll (tr : CStr → Int) : Int × List CStr :=
  let s := send_command_to_variable_server tr (str ("trick.var_send()"))
  (if s.1 < 0 then (-1 : Int) else 0, s.2)

/-- Embedding of run (source lines 510-517). -/
def run (tr : CStr → Int) : Int × List CStr :=
  let s := send_command_to_variable_server tr (str ("trick.exec_run()"))
  (if s.1 < 0 then (-1 : Int) else 0, s.2)

/-- Embedding of freeze (source lines 531-538). -/
def freeze (tr : CStr → Int) : Int × List CStr :=
  let s := send_command_to_variable_server tr (str ("trick.exec_freeze()"))
  (if s.1 < 0 then (-1 : Int) else 0, s.2)

/-- The prefix literal of add_variable_to_server (and of
    add_variable_to_sever_with_units), 15 characters. -/
def nsAdd : CStr := str ("trick.var_add(\"")

/-- The closing literal of the quoted-argument builders, 2 characters. -/
def quoteSuf : CStr := str ("\")")

/-- The separator literal of add_variable_to_sever_with_units,
    4 characters. -/
def unitsMid : CStr := str ("\", \"")

/-- The prefix literal of remove_variable_from_server, 18 characters. -/
def nsRemove : CStr := str ("trick.var_remove(\"")

/-- The prefix literal of set_client_tag, 26 characters. -/
def nsTag : CStr := str ("trick.var_set_client_tag(\"")

/-- Embedding of add_variable_to_server (source lines 277-298). -/
def add_variable_to_server (tr : CStr → Int) (variable_name : CStr) :
    Int × List CStr :=
  if 512 < nsAdd.length + variable_name.length + quoteSuf.length + 1 then
    ((-1 : Int), [])
  else
    let cmd := strncpyFull nsAdd 512
    let cmd2 := strncatM cmd variable_name (512 - cmd.length - 1)
    let cmd3 := strncatM cmd2 quoteSuf (512 - cmd2.length - 1)
    let s := send_command_to_variable_server tr cmd3
    (if s.1 < 0 then (-1 : Int) else 0, s.2)

/-- Embedding of add_variable_to_sever_with_units (source lines 315-339;
    the misspelling of the name is the source's own). -/
def add_variable_to_sever_with_units (tr : CStr → Int)
    (variable_name units : CStr) : Int × List CStr :=
  if 512 < nsAdd.length + variable_name.length + unitsMid.length +
      units.length + quoteSuf.length + 1 then
    ((-1 : Int), [])
  else
    let cmd := strncpyFull nsAdd 512
    let cmd2 := strncatM cmd variable_name (512 - cmd.length - 1)
    let cmd3 := strncatM cmd2 unitsMid (512 - cmd2.length - 1)
    let cmd4 := strncatM cmd3 units (512 - cmd3.length - 1)
    let cmd5 := strncatM cmd4 quoteSuf (512 - cmd4.length - 1)
    let s := send_command_to_variable_server tr cmd5
    (if s.1 < 0 then (-1 : Int) else 0, s.2)

/-- Embedding of remove_variable_from_server (source lines 354-375). -/
def remove_variable_from_server (tr : CStr → Int) (variable_name : CStr) :
    Int × List CStr :=
  if 512 < nsRemove.length + variable_name.length + quoteSuf.length + 1 then
    ((-1 : Int), [])
  else
    let cmd := strncpyFull nsRemove 512
    let cmd2 := strncatM cmd variable_name (512 - cmd.length - 1)
    let cmd3 := strncatM cmd2 quoteSuf (512 - cmd2.length - 1)
    let s := send_command_to_variable_server tr cmd3
    (if s.1 < 0 then (-1 : Int) else 0, s.2)

/-- Embedding of set_client_tag (source lines 692-712). -/
def set_client_tag (tr : CStr → Int) (tag : CStr) : Int × List CStr :=
  if 512 < nsTag.length + tag.length + quoteSuf.length + 1 then
    ((-1 : Int), [])
  else
    let cmd := strncpyFull nsTag 512
    let cmd2 := strncatM cmd tag (512 - cmd.length - 1)
    let cmd3 := strncatM cmd2 quoteSuf (512 - cmd2.length - 1)
    let s := send_command_to_variable_server tr cmd3
    (if s.1 < 0 then (-1 : Int) else 0, s.2)

/-- Decimal rendering of an integer by printf %i (digits, with a leading
    minus sign for negative values). -/
def fmt_i (i : Int) : CStr := str (toString i)

/-- The prefix literal of set_cycle, 16 characters. -/
def nsCycle : CStr := str ("trick.var_cycle(")

/-- The prefix literal of set_copy_mode, 24 characters. -/
def nsCopyMode : CStr := str ("trick.var_set_copy_mode(")

/-- The prefix literal of set_validate_addresses, 27 characters. -/
def nsValidate : CStr := str ("trick.var_validate_address(")

/-- The prefix literal of set_real_time, 16 characters. -/
def nsRealTime : CStr := str ("trick.real_time_")

/-- The prefix literal of set_debug_level, 16 characters. -/
def nsDebug : CStr := str ("trick.var_debug(")

/-- The closing-parenthesis literal, 1 character. -/
def parenSuf : CStr := str (")")

/-- The call-parentheses literal of set_real_time, 2 characters. -/
def callSuf : CStr := str ("()")

/-- Embedding of set_cycle (source lines 411-435).  The period is a C
    double rendered by snprintf(per, 128, "%lf", period); floating-point
    formatting is external to this development, so the operation takes
    the untruncated rendering as its argument and applies snprintf's
    truncation to 127 characters, exactly as the 128-byte scratch buffer
    does. -/
def set_cycle (tr : CStr → Int) (perRendered : CStr) : Int × List CStr :=
  let per := perRendered.take 127
  if 512 < nsCycle.length + per.length + parenSuf.length + 1 then
    ((-1 : Int), [])
  else
    let cmd := strncpyFull nsCycle 512
    let cmd2 := strncatM cmd per (512 - cmd.length - 1)
    let cmd3 := strncatM cmd2 parenSuf (512 - cmd2.length - 1)
    let s := send_command_to_variable_server tr cmd3
    (if s.1 < 0 then (-1 : Int) else 0, s.2)

/-- Embedding of set_copy_mode (source lines 451-475).  The scratch
    buffer char mod[4] makes snprintf(mod, 4, "%i", mode) keep only the
    first three characters of the rendering. -/
def set_copy_mode (tr : CStr → Int) (mode : Int) : Int × List CStr :=
  let mod := (fmt_i mode).take 3
  if 512 < nsCopyMode.length + mod.length + parenSuf.length + 1 then
    ((-1 : Int), [])
  else
    let cmd := strncpyFull nsCopyMode 512
    let cmd2 := strncatM cmd mod (512 - cmd.length - 1)
    let cmd3 := strncatM cmd2 parenSuf (512 - cmd2.length - 1)
    let s := send_command_to_variable_server tr cmd3
    (if s.1 < 0 then (-1 : Int) else 0, s.2)

/-- Embedding of set_debug_level (source lines 653-677).  The command is
    built in a 256-byte buffer; snprintf(lev, 64, "%i", level) keeps the
    first 63 characters of the rendering. -/
def set_debug_level (tr : CStr → Int) (level : Int) : Int × List CStr :=
  let lev := (fmt_i level).take 63
  if 256 < nsDebug.length + lev.length + parenSuf.length + 1 then
    ((-1 : Int), [])
  else
    let cmd := strncpyFull nsDebug 256
    let cmd2 := strncatM cmd lev (256 - cmd.length - 1)
    let cmd3 := strncatM cmd2 parenSuf (256 - cmd2.length - 1)
    let s := send_command_to_variable_server tr cmd3
    (if s.1 < 0 then (-1 : Int) else 0, s.2)

/-- Embedding of set_validate_addresses (source lines 575-599).  The
    token is chosen by the sign test validate > 0; the command is built
    in a 256-byte buffer. -/
def set_validate_addresses (tr : CStr → Int) (validate : Int) :
    Int × List CStr :=
  let val := if 0 < validate then strncpyFull (str ("True")) 16
             else strncpyFull (str ("False")) 16
  if 256 < nsValidate.length + val.length + parenSuf.length + 1 then
    ((-1 : Int), [])
  else
    let cmd := strncpyFull nsValidate 256
    let cmd2 := strncatM cmd val (256 - cmd.length - 1)
    let cmd3 := strncatM cmd2 parenSuf (256 - cmd2.length - 1)
    let s := send_command_to_variable_server tr cmd3
    (if s.1 < 0 then (-1 : Int) else 0, s.2)

/-- Embedding of set_real_time (source lines 614-638).  The token is
    chosen by the sign test enabled > 0; the command is built in a
    256-byte buffer. -/
def set_real_time (tr : CStr → Int) (enabled : Int) : Int × List CStr :=
  let enab := if 0 < enabled then strncpyFull (str ("enable")) 16
              else strncpyFull (str ("disable")) 16
  if 256 < nsRealTime.length + enab.length + callSuf.length + 1 then
    ((-1 : Int), [])
  else
    let cmd := strncpyFull nsRealTime 256
    let cmd2 := strncatM cmd enab (256 - cmd.length - 1)
    let cmd3 := strncatM cmd2 callSuf (256 - cmd2.length - 1)
    let s := send_command_to_variable_server tr cmd3
    (if s.1 < 0 then (-1 : Int) else 0, s.2)

/-- The wire string sent by set_validate_addresses, by sign of the flag. -/
def validateWire (validate : Int) : CStr :=
  if 0 < validate then str ("trick.var_validate_address(True)\n")
  else str ("trick.var_validate_address(False)\n")

/-- The wire string sent by set_real_time, by sign of the flag. -/
def realTimeWire (enabled : Int) : CStr :=
  if 0 < enabled then str ("trick.real_time_enable()\n")
  else str ("trick.real_time_disable()\n")

/-- Embedding of close (source lines 552-560):

    int close(int socket) {
      if (send_command_to_variable_server(socket,"trick.var_exit()")<0)
        return -1;
      else { close(socket); return 0; }
    }

    The file includes stdio.h, string.h, sys/socket.h and arpa/inet.h but
    not unistd.h, so the identifier close on line 557 denotes this very
    function: the call is self-recursion, and no operating-system close
    is in scope anywhere in the translation unit.  The recursion is
    modelled with explicit fuel; since the source has no terminating base
    case on the success path, exhausting the fuel yields none (the
    C execution would recurse forever or crash the stack).  The C return
    value 0 of the outer call, reached only if the recursive call ever
    returns, is modelled by mapping any returned value to 0. -/
def close (tr : CStr → Int) : Nat → Option Int × List CStr
  | 0 => (none, [])
  | fuel + 1 =>
    let s := send_command_to_variable_server tr (str ("trick.var_exit()"))
    if s.1 < 0 then (some (-1 : Int), s.2)
    else ((close tr fuel).1.map (fun _ => (0 : Int)), s.2 ++ (close tr fuel).2)

/-- The single outcome the underlying recv call reports in one
    invocation.  Modelled from the spec (and from the recv contract the
    source's own documentation block restates at lines 733-735): the peer
    either has bytes pending, has performed an orderly shutdown, or the
    transport fails with an error code; a call with no pending data and
    no shutdown blocks and is outside this single-call model. -/
inductive RecvOutcome
  | data (bytes : CStr)
  | orderlyShutdown
  | transportError (errno : Int)
deriving DecidableEq

/-- Model of one recv(socket, buffer, lenght, flags) call: at most lenght
    pending bytes are copied into the caller's buffer and their count
    returned; orderly shutdown returns 0; a transport error returns -1. -/
def recvModel (outcome : RecvOutcome) (lenght : Nat) : Int × CStr :=
  match outcome with
  | RecvOutcome.data bytes =>
      (((bytes.take lenght).length : Int), bytes.take lenght)
  | RecvOutcome.orderlyShutdown => (0, [])
  | RecvOutcome.transportError _ => ((-1 : Int), [])

/-- Embedding of receive_message_from_variable_server (source lines
    739-741): a direct pass-through of the single recv call, forwarding
    lenght and flags unchanged (the flags select peek, out-of-band or
    wait-for-full semantics inside the transport and do not alter the
    return-value contract modelled here). -/
def receive_message_from_variable_server (outcome : RecvOutcome)
    (lenght : Nat) (flags : Int) : Int × CStr :=
  recvModel outcome lenght

/-- The command-building operations of the library, with their
    arguments.  For set_cycle the argument is the untruncated %lf
    rendering of the period (see set_cycle). -/
inductive Op
  | setAscii
  | setBinary
  | setBinaryNoNames
  | setSync
  | opPause
  | opUnpause
  | addVariable (name : CStr)
  | addVariableWithUnits (name units : CStr)
  | removeVariable (name : CStr)
  | opClear
  | setCycle (perRendered : CStr)
  | setCopyMode (mode : Int)
  | opPoll
  | opRun
  | opFreeze
  | setValidateAddresses (validate : Int)
  | setRealTime (enabled : Int)
  | setDebugLevel (level : Int)
  | setClientTag (tag : CStr)

/-- Dispatch of an operation to its embedded source function. -/
def runOp (op : Op) (tr : CStr → Int) : Int × List CStr :=
  match op with
  | Op.setAscii => set_ascii tr
  | Op.setBinary => set_binary tr
  | Op.setBinaryNoNames => set_binary_no_names tr
  | Op.setSync => set_sync tr
  | Op.opPause => pause tr
  | Op.opUnpause => unpause tr
  | Op.addVariable name => add_variable_to_server tr name
  | Op.addVariableWithUnits name units =>
      add_variable_to_sever_with_units tr name units
  | Op.removeVariable name => remove_variable_from_server tr name
  | Op.opClear => clear tr
  | Op.setCycle perRendered => set_cycle tr perRendered
  | Op.setCopyMode mode => set_copy_mode tr mode
  | Op.opPoll => poll tr
  | Op.opRun => run tr
  | Op.opFreeze => freeze tr
  | Op.setValidateAddresses validate => set_validate_addresses tr validate
  | Op.setRealTime enabled => set_real_time tr enabled
  | Op.setDebugLevel level => set_debug_level tr level
  | Op.setClientTag tag => set_client_tag tr tag

/-- Modelled from the spec: the documented wire templates of the external
    interface table (spec section 6), with the operation's arguments
    substituted verbatim (numeric arguments as their full decimal
    rendering, the period as its full %lf rendering, the boolean flags as
    the token the spec assigns to their truth value). -/
def specTemplate : Op → CStr
  | Op.setAscii => str ("trick.var_ascii()")
  | Op.setBinary => str ("trick.var_binary()")
  | Op.setBinaryNoNames => str ("trick.var_binary_nonames()")
  | Op.setSync => str ("trick.var_sync(1)")
  | Op.opPause => str ("trick.var_pause()")
  | Op.opUnpause => str ("trick.var_unpause()")
  | Op.addVariable name => nsAdd ++ name ++ quoteSuf
  | Op.addVariableWithUnits name units =>
      nsAdd ++ name ++ unitsMid ++ units ++ quoteSuf
  | Op.removeVariable name => nsRemove ++ name ++ quoteSuf
  | Op.opClear => str ("trick.var_clear()")
  | Op.setCycle perRendered => nsCycle ++ perRendered ++ parenSuf
  | Op.setCopyMode mode => nsCopyMode ++ fmt_i mode ++ parenSuf
  | Op.opPoll => str ("trick.var_send()")
  | Op.opRun => str ("trick.exec_run()")
  | Op.opFreeze => str ("trick.exec_freeze()")
  | Op.setValidateAddresses validate =>
      if 0 < validate then str ("trick.var_validate_address(True)")
      else str ("trick.var_validate_address(False)")
  | Op.setRealTime enabled =>
      if 0 < enabled then str ("trick.real_time_enable()")
      else str ("trick.real_time_disable()")
  | Op.setDebugLevel level => nsDebug ++ fmt_i level ++ parenSuf
  | Op.setClientTag tag => nsTag ++ tag ++ quoteSuf

/-- The byte string an operation actually hands to the transport when its
    guards pass (including the snprintf truncations of the scratch
    buffers), newline included. -/
def opWire : Op → CStr
  | Op.setAscii => str ("trick.var_ascii()\n")
  | Op.setBinary => str ("trick.var_binary()\n")
  | Op.setBinaryNoNames => str ("trick.var_binary_nonames()\n")
  | Op.setSync => str ("trick.var_sync(1)\n")
  | Op.opPause => str ("trick.var_pause()\n")
  | Op.opUnpause => str ("trick.var_unpause()\n")
  | Op.addVariable name => nsAdd ++ name ++ quoteSuf ++ str ("\n")
  | Op.addVariableWithUnits name units =>
      nsAdd ++ name ++ unitsMid ++ units ++ quoteSuf ++ str ("\n")
  | Op.removeVariable name => nsRemove ++ name ++ quoteSuf ++ str ("\n")
  | Op.opClear => str ("trick.var_clear()\n")
  | Op.setCycle perRendered =>
      nsCycle ++ perRendered.take 127 ++ parenSuf ++ str ("\n")
  | Op.setCopyMode mode =>
      nsCopyMode ++ (fmt_i mode).take 3 ++ parenSuf ++ str ("\n")
  | Op.opPoll => str ("trick.var_send()\n")
  | Op.opRun => str ("trick.exec_run()\n")
  | Op.opFreeze => str ("trick.exec_freeze()\n")
  | Op.setValidateAddresses validate => validateWire validate
  | Op.setRealTime enabled => realTimeWire enabled
  | Op.setDebugLevel level =>
      nsDebug ++ (fmt_i level).take 63 ++ parenSuf ++ str ("\n")
  | Op.setClientTag tag => nsTag ++ tag ++ quoteSuf ++ str ("\n")

/-- Whether each numeric argument's decimal rendering fits its snprintf
    scratch buffer, so that no truncation occurs (3 characters for the
    copy mode, 63 for the debug level, 127 for the period rendering). -/
def rendersFitB : Op → Bool
  | Op.setCycle perRendered => decide (perRendered.length ≤ 127)
  | Op.setCopyMode mode => decide ((fmt_i mode).length ≤ 3)
  | Op.setDebugLevel level => decide ((fmt_i level).length ≤ 63)
  | _ => true

/-- Whether the numeric arguments are renderings attainable from the C
    argument types: a 32-bit int renders by %i in at most 11 characters,
    and a double renders by %lf in at most 317 characters (at most 309
    integral digits, a sign, the point and six decimals). -/
def argsRenderableB : Op → Bool
  | Op.setCycle perRendered => decide (perRendered.length ≤ 317)
  | Op.setCopyMode mode => decide ((fmt_i mode).length ≤ 11)
  | Op.setDebugLevel level => decide ((fmt_i level).length ≤ 11)
  | _ => true

/-- The wire output accumulated by n successive calls of a
    connection-and-transport parameterized operation. -/
def iterWrites (f : (CStr → Int) → Int × List CStr) (tr : CStr → Int) :
    Nat → List CStr
  | 0 => []
  | n + 1 => (f tr).2 ++ iterWrites f tr n

/-- Whether the operation's guards accept the arguments (computed from
    the characterization lemmas above). -/
def opOkB : Op → Bool
  | Op.addVariable name => decide (name.length ≤ 493)
  | Op.addVariableWithUnits name units =>
      decide (name.length + units.length ≤ 489)
  | Op.removeVariable name => decide (name.length ≤ 490)
  | Op.setClientTag tag => decide (tag.length ≤ 482)
  | _ => true

theorem strncpyFull_eq (src : CStr) (n : Nat) (h : src.length ≤ n) :
    strncpyFull src n = src := by
  unfold strncpyFull
  exact List.take_of_length_le h

theorem strncatM_eq (dst src : CStr) (n : Nat) (h : src.length ≤ n) :
    strncatM dst src n = dst ++ src := by
  unfold strncatM
  rw [List.take_of_length_le h]

/-- In-bounds behaviour of the raw send: for commands of at most 510
    characters the guard passes, strncpy and strncat perform no
    truncation, and the exact command plus one newline is handed to the
    transport in a single write. -/
theorem send_command_ok (tr : CStr → Int) (c : CStr) (h : c.length ≤ 510) :
    send_command_to_variable_server tr c =
      (tr (c ++ str ("\n")), [c ++ str ("\n")]) := by
  unfold send_command_to_variable_server
  rw [if_neg (by omega)]
  simp only [strncpyFull_eq c 512 (by omega)]
  rw [strncatM_eq c (str ("\n")) (512 - c.length - 1) (by simp [str]; omega)]

/-- Out-of-bounds behaviour of the raw send: commands of 511 characters
    or more are rejected before any write. -/
theorem send_command_fail (tr : CStr → Int) (c : CStr) (h : 511 ≤ c.length) :
    send_command_to_variable_server tr c = ((-1 : Int), []) := by
  unfold send_command_to_variable_server
  rw [if_pos (by omega)]

theorem set_ascii_char (tr : CStr → Int) :
    set_ascii tr =
      (if tr (str ("trick.var_ascii()\n")) < 0 then (-1 : Int) else 0,
       [str ("trick.var_ascii()\n")]) := rfl

theorem set_binary_char (tr : CStr → Int) :
    set_binary tr =
      (if tr (str ("trick.var_binary()\n")) < 0 then (-1 : Int) else 0,
       [str ("trick.var_binary()\n")]) := rfl

theorem set_binary_no_names_char (tr : CStr → Int) :
    set_binary_no_names tr =
      (if tr (str ("trick.var_binary_nonames()\n")) < 0 then (-1 : Int) else 0,
       [str ("trick.var_binary_nonames()\n")]) := rfl

theorem set_sync_char (tr : CStr → Int) :
    set_sync tr =
      (if tr (str ("trick.var_sync(1)\n")) < 0 then (-1 : Int) else 0,
       [str ("trick.var_sync(1)\n")]) := rfl

theorem pause_char (tr : CStr → Int) :
    pause tr =
      (if tr (str ("trick.var_pause()\n")) < 0 then (-1 : Int) else 0,
       [str ("trick.var_pause()\n")]) := rfl

theorem unpause_char (tr : CStr → Int) :
    unpause tr =
      (if tr (str ("trick.var_unpause()\n")) < 0 then (-1 : Int) else 0,
       [str ("trick.var_unpause()\n")]) := rfl

theorem clear_char (tr : CStr → Int) :
    clear tr =
      (if tr (str ("trick.var_clear()\n")) < 0 then (-1 : Int) else 0,
       [str ("trick.var_clear()\n")]) := rfl

theorem poll_char (tr : CStr → Int) :
    poll tr =
      (if tr (str ("trick.var_send()\n")) < 0 then (-1 : Int) else 0,
       [str ("trick.var_send()\n")]) := rfl

theorem run_char (tr : CStr → Int) :
    run tr =
      (if tr (str ("trick.exec_run()\n")) < 0 then (-1 : Int) else 0,
       [str ("trick.exec_run()\n")]) := rfl

theorem freeze_char (tr : CStr → Int) :
    freeze tr =
      (if tr (str ("trick.exec_freeze()\n")) < 0 then (-1 : Int) else 0,
       [str ("trick.exec_freeze()\n")]) := rfl

/-- Full characterization of add_variable_to_server: names of at most 493
    characters are assembled without truncation and handed to the
    transport as one write; longer names are rejected with no write (at
    495 and beyond by the builder's own guard, at 494 by the raw-send
    guard, since the assembled 511-character command leaves no room for
    newline plus terminator). -/
theorem add_variable_char (tr : CStr → Int) (name : CStr) :
    add_variable_to_server tr name =
      if name.length ≤ 493 then
        (if tr (nsAdd ++ name ++ quoteSuf ++ str ("\n")) < 0 then (-1 : Int)
         else 0,
         [nsAdd ++ name ++ quoteSuf ++ str ("\n")])
      else ((-1 : Int), []) := by
  have hpre : nsAdd.length = 15 := rfl
  have hsuf : quoteSuf.length = 2 := rfl
  unfold add_variable_to_server
  by_cases hle : name.length ≤ 494
  · rw [if_neg (by rw [hpre, hsuf]; omega)]
    simp only [strncpyFull_eq nsAdd 512 (by decide)]
    rw [strncatM_eq nsAdd name _ (by rw [hpre]; omega)]
    rw [strncatM_eq (nsAdd ++ name) quoteSuf _
      (by simp only [List.length_append, hpre, hsuf]; omega)]
    by_cases hs : name.length ≤ 493
    · rw [if_pos hs, send_command_ok tr (nsAdd ++ name ++ quoteSuf)
        (by simp only [List.length_append, hpre, hsuf]; omega)]
    · rw [if_neg hs, send_command_fail tr (nsAdd ++ name ++ quoteSuf)
        (by simp only [List.length_append, hpre, hsuf]; omega)]
      norm_num
  · rw [if_pos (by rw [hpre, hsuf]; omega), if_neg (by omega)]

/-- Full characterization of add_variable_to_sever_with_units: success
    exactly when the name and units lengths sum to at most 489 (490 is
    stopped by the raw-send guard, 491 and beyond by the builder's own
    guard). -/
theorem add_variable_with_units_char (tr : CStr → Int) (name units : CStr) :
    add_variable_to_sever_with_units tr name units =
      if name.length + units.length ≤ 489 then
        (if tr (nsAdd ++ name ++ unitsMid ++ units ++ quoteSuf ++ str ("\n")) < 0
           then (-1 : Int) else 0,
         [nsAdd ++ name ++ unitsMid ++ units ++ quoteSuf ++ str ("\n")])
      else ((-1 : Int), []) := by
  have hpre : nsAdd.length = 15 := rfl
  have hmid : unitsMid.length = 4 := rfl
  have hsuf : quoteSuf.length = 2 := rfl
  unfold add_variable_to_sever_with_units
  by_cases hle : name.length + units.length ≤ 490
  · rw [if_neg (by rw [hpre, hmid, hsuf]; omega)]
    simp only [strncpyFull_eq nsAdd 512 (by decide)]
    rw [strncatM_eq nsAdd name _ (by rw [hpre]; omega)]
    rw [strncatM_eq (nsAdd ++ name) unitsMid _
      (by simp only [List.length_append, hpre, hmid]; omega)]
    rw [strncatM_eq (nsAdd ++ name ++ unitsMid) units _
      (by simp only [List.length_append, hpre, hmid]; omega)]
    rw [strncatM_eq (nsAdd ++ name ++ unitsMid ++ units) quoteSuf _
      (by simp only [List.length_append, hpre, hmid, hsuf]; omega)]
    by_cases hs : name.length + units.length ≤ 489
    · rw [if_pos hs, send_command_ok tr (nsAdd ++ name ++ unitsMid ++ units ++ quoteSuf)
        (by simp only [List.length_append, hpre, hmid, hsuf]; omega)]
    · rw [if_neg hs, send_command_fail tr (nsAdd ++ name ++ unitsMid ++ units ++ quoteSuf)
        (by simp only [List.length_append, hpre, hmid, hsuf]; omega)]
      norm_num
  · rw [if_pos (by rw [hpre, hmid, hsuf]; omega), if_neg (by omega)]

/-- Full characterization of remove_variable_from_server: success exactly
    for names of at most 490 characters (491 is stopped by the raw-send
    guard, 492 and beyond by the builder's own guard). -/
theorem remove_variable_char (tr : CStr → Int) (name : CStr) :
    remove_variable_from_server tr name =
      if name.length ≤ 490 then
        (if tr (nsRemove ++ name ++ quoteSuf ++ str ("\n")) < 0 then (-1 : Int)
         else 0,
         [nsRemove ++ name ++ quoteSuf ++ str ("\n")])
      else ((-1 : Int), []) := by
  have hpre : nsRemove.length = 18 := rfl
  have hsuf : quoteSuf.length = 2 := rfl
  unfold remove_variable_from_server
  by_cases hle : name.length ≤ 491
  · rw [if_neg (by rw [hpre, hsuf]; omega)]
    simp only [strncpyFull_eq nsRemove 512 (by decide)]
    rw [strncatM_eq nsRemove name _ (by rw [hpre]; omega)]
    rw [strncatM_eq (nsRemove ++ name) quoteSuf _
      (by simp only [List.length_append, hpre, hsuf]; omega)]
    by_cases hs : name.length ≤ 490
    · rw [if_pos hs, send_command_ok tr (nsRemove ++ name ++ quoteSuf)
        (by simp only [List.length_append, hpre, hsuf]; omega)]
    · rw [if_neg hs, send_command_fail tr (nsRemove ++ name ++ quoteSuf)
        (by simp only [List.length_append, hpre, hsuf]; omega)]
      norm_num
  · rw [if_pos (by rw [hpre, hsuf]; omega), if_neg (by omega)]

/-- Full characterization of set_client_tag: success exactly for tags of
    at most 482 characters (483 is stopped by the raw-send guard, 484 and
    beyond by the builder's own guard). -/
theorem set_client_tag_char (tr : CStr → Int) (tag : CStr) :
    set_client_tag tr tag =
      if tag.length ≤ 482 then
        (if tr (nsTag ++ tag ++ quoteSuf ++ str ("\n")) < 0 then (-1 : Int)
         else 0,
         [nsTag ++ tag ++ quoteSuf ++ str ("\n")])
      else ((-1 : Int), []) := by
  have hpre : nsTag.length = 26 := rfl
  have hsuf : quoteSuf.length = 2 := rfl
  unfold set_client_tag
  by_cases hle : tag.length ≤ 483
  · rw [if_neg (by rw [hpre, hsuf]; omega)]
    simp only [strncpyFull_eq nsTag 512 (by decide)]
    rw [strncatM_eq nsTag tag _ (by rw [hpre]; omega)]
    rw [strncatM_eq (nsTag ++ tag) quoteSuf _
      (by simp only [List.length_append, hpre, hsuf]; omega)]
    by_cases hs : tag.length ≤ 482
    · rw [if_pos hs, send_command_ok tr (nsTag ++ tag ++ quoteSuf)
        (by simp only [List.length_append, hpre, hsuf]; omega)]
    · rw [if_neg hs, send_command_fail tr (nsTag ++ tag ++ quoteSuf)
        (by simp only [List.length_append, hpre, hsuf]; omega)]
      norm_num
  · rw [if_pos (by rw [hpre, hsuf]; omega), if_neg (by omega)]

/-- Full characterization of set_cycle: the guards never fire (the
    truncated rendering is at most 127 characters, so the command is at
    most 144 characters), and the wire string embeds the rendering
    truncated to 127 characters. -/
theorem set_cycle_char (tr : CStr → Int) (perRendered : CStr) :
    set_cycle tr perRendered =
      (if tr (nsCycle ++ perRendered.take 127 ++ parenSuf ++ str ("\n")) < 0
         then (-1 : Int) else 0,
       [nsCycle ++ perRendered.take 127 ++ parenSuf ++ str ("\n")]) := by
  have hp : (perRendered.take 127).length ≤ 127 := by
    simp [List.length_take]
  have hpre : nsCycle.length = 16 := rfl
  have hsuf : parenSuf.length = 1 := rfl
  unfold set_cycle
  rw [if_neg (by rw [hpre, hsuf]; omega)]
  simp only [strncpyFull_eq nsCycle 512 (by decide)]
  rw [strncatM_eq nsCycle (perRendered.take 127) _ (by rw [hpre]; omega)]
  rw [strncatM_eq (nsCycle ++ perRendered.take 127) parenSuf _
    (by simp only [List.length_append, hpre, hsuf]; omega)]
  rw [send_command_ok tr (nsCycle ++ perRendered.take 127 ++ parenSuf)
    (by simp only [List.length_append, hpre, hsuf]; omega)]

/-- Full characterization of set_copy_mode: the guards never fire (the
    truncated rendering is at most 3 characters), and the wire string
    embeds the rendering truncated to 3 characters. -/
theorem set_copy_mode_char (tr : CStr → Int) (mode : Int) :
    set_copy_mode tr mode =
      (if tr (nsCopyMode ++ (fmt_i mode).take 3 ++ parenSuf ++ str ("\n")) < 0
         then (-1 : Int) else 0,
       [nsCopyMode ++ (fmt_i mode).take 3 ++ parenSuf ++ str ("\n")]) := by
  have hm : ((fmt_i mode).take 3).length ≤ 3 := by
    simp [List.length_take]
  have hpre : nsCopyMode.length = 24 := rfl
  have hsuf : parenSuf.length = 1 := rfl
  unfold set_copy_mode
  rw [if_neg (by rw [hpre, hsuf]; omega)]
  simp only [strncpyFull_eq nsCopyMode 512 (by decide)]
  rw [strncatM_eq nsCopyMode ((fmt_i mode).take 3) _ (by rw [hpre]; omega)]
  rw [strncatM_eq (nsCopyMode ++ (fmt_i mode).take 3) parenSuf _
    (by simp only [List.length_append, hpre, hsuf]; omega)]
  rw [send_command_ok tr (nsCopyMode ++ (fmt_i mode).take 3 ++ parenSuf)
    (by simp only [List.length_append, hpre, hsuf]; omega)]

/-- Full characterization of set_debug_level: the guards never fire (the
    truncated rendering is at most 63 characters), and the wire string
    embeds the rendering truncated to 63 characters. -/
theorem set_debug_level_char (tr : CStr → Int) (level : Int) :
    set_debug_level tr level =
      (if tr (nsDebug ++ (fmt_i level).take 63 ++ parenSuf ++ str ("\n")) < 0
         then (-1 : Int) else 0,
       [nsDebug ++ (fmt_i level).take 63 ++ parenSuf ++ str ("\n")]) := by
  have hl : ((fmt_i level).take 63).length ≤ 63 := by
    simp [List.length_take]
  have hpre : nsDebug.length = 16 := rfl
  have hsuf : parenSuf.length = 1 := rfl
  unfold set_debug_level
  rw [if_neg (by rw [hpre, hsuf]; omega)]
  simp only [strncpyFull_eq nsDebug 256 (by decide)]
  rw [strncatM_eq nsDebug ((fmt_i level).take 63) _ (by rw [hpre]; omega)]
  rw [strncatM_eq (nsDebug ++ (fmt_i level).take 63) parenSuf _
    (by simp only [List.length_append, hpre, hsuf]; omega)]
  rw [send_command_ok tr (nsDebug ++ (fmt_i level).take 63 ++ parenSuf)
    (by simp only [List.length_append, hpre, hsuf]; omega)]

/-- Full characterization of set_validate_addresses: the guards never
    fire and the single write carries the True token exactly when the
    flag is positive. -/
theorem set_validate_addresses_char (tr : CStr → Int) (validate : Int) :
    set_validate_addresses tr validate =
      (if tr (validateWire validate) < 0 then (-1 : Int) else 0,
       [validateWire validate]) := by
  unfold set_validate_addresses validateWire
  by_cases hv : 0 < validate
  · simp only [if_pos hv]; rfl
  · simp only [if_neg hv]; rfl

/-- Full characterization of set_real_time: the guards never fire and the
    single write carries the enable token exactly when the flag is
    positive. -/
theorem set_real_time_char (tr : CStr → Int) (enabled : Int) :
    set_real_time tr enabled =
      (if tr (realTimeWire enabled) < 0 then (-1 : Int) else 0,
       [realTimeWire enabled]) := by
  unfold set_real_time realTimeWire
  by_cases hv : 0 < enabled
  · simp only [if_pos hv]; rfl
  · simp only [if_neg hv]; rfl

/-- Single characterization of every command-building operation: accepted
    arguments give one write of the actual wire string with the result
    mirroring the transport outcome; rejected arguments give failure with
    no write. -/
theorem runOp_char (op : Op) (tr : CStr → Int) :
    runOp op tr =
      if opOkB op = true then
        (if tr (opWire op) < 0 then (-1 : Int) else 0, [opWire op])
      else ((-1 : Int), []) := by
  cases op with
  | setAscii => exact set_ascii_char tr
  | setBinary => exact set_binary_char tr
  | setBinaryNoNames => exact set_binary_no_names_char tr
  | setSync => exact set_sync_char tr
  | opPause => exact pause_char tr
  | opUnpause => exact unpause_char tr
  | addVariable name =>
      simp only [runOp, opOkB, opWire, decide_eq_true_eq]
      exact add_variable_char tr name
  | addVariableWithUnits name units =>
      simp only [runOp, opOkB, opWire, decide_eq_true_eq]
      exact add_variable_with_units_char tr name units
  | removeVariable name =>
      simp only [runOp, opOkB, opWire, decide_eq_true_eq]
      exact remove_variable_char tr name
  | opClear => exact clear_char tr
  | setCycle perRendered => exact set_cycle_char tr perRendered
  | setCopyMode mode => exact set_copy_mode_char tr mode
  | opPoll => exact poll_char tr
  | opRun => exact run_char tr
  | opFreeze => exact freeze_char tr
  | setValidateAddresses validate => exact set_validate_addresses_char tr validate
  | setRealTime enabled => exact set_real_time_char tr enabled
  | setDebugLevel level => exact set_debug_level_char tr level
  | setClientTag tag =>
      simp only [runOp, opOkB, opWire, decide_eq_true_eq]
      exact set_client_tag_char tr tag

theorem nsAdd_length : nsAdd.length = 15 := rfl

theorem quoteSuf_length : quoteSuf.length = 2 := rfl

theorem unitsMid_length : unitsMid.length = 4 := rfl

theorem nsRemove_length : nsRemove.length = 18 := rfl

theorem nsTag_length : nsTag.length = 26 := rfl

theorem nsCycle_length : nsCycle.length = 16 := rfl

theorem nsCopyMode_length : nsCopyMode.length = 24 := rfl

theorem nsDebug_length : nsDebug.length = 16 := rfl

theorem parenSuf_length : parenSuf.length = 1 := rfl

/-- When the numeric renderings fit their scratch buffers, the actual
    wire string of every operation is exactly the documented template
    plus one newline. -/
theorem opWire_eq_template (op : Op) (hfit : rendersFitB op = true) :
    opWire op = specTemplate op ++ str ("\n") := by
  cases op with
  | setCycle perRendered =>
      simp only [rendersFitB, decide_eq_true_eq] at hfit
      simp only [opWire, specTemplate, List.take_of_length_le hfit]
  | setCopyMode mode =>
      simp only [rendersFitB, decide_eq_true_eq] at hfit
      simp only [opWire, specTemplate, List.take_of_length_le hfit]
  | setDebugLevel level =>
      simp only [rendersFitB, decide_eq_true_eq] at hfit
      simp only [opWire, specTemplate, List.take_of_length_le hfit]
  | setValidateAddresses validate =>
      by_cases hv : 0 < validate
      · simp only [opWire, specTemplate, validateWire, if_pos hv]; rfl
      · simp only [opWire, specTemplate, validateWire, if_neg hv]; rfl
  | setRealTime enabled =>
      by_cases hv : 0 < enabled
      · simp only [opWire, specTemplate, realTimeWire, if_pos hv]; rfl
      · simp only [opWire, specTemplate, realTimeWire, if_neg hv]; rfl
  | setAscii => rfl
  | setBinary => rfl
  | setBinaryNoNames => rfl
  | setSync => rfl
  | opPause => rfl
  | opUnpause => rfl
  | addVariable name => rfl
  | addVariableWithUnits name units => rfl
  | removeVariable name => rfl
  | opClear => rfl
  | opPoll => rfl
  | opRun => rfl
  | opFreeze => rfl
  | setClientTag tag => rfl

/-- Claim C1, counterexample: set_copy_mode with mode 1000 reports
    success, yet the byte string handed to the transport is
    trick.var_set_copy_mode(100) plus newline, not the documented
    template with the argument substituted verbatim: snprintf into the
    4-byte scratch buffer silently truncated the rendering to a shorter,
    different command. -/
theorem C1_counterexample :
    (runOp (Op.setCopyMode 1000) (fun _ => (0 : Int))).1 = 0 ∧
    (runOp (Op.setCopyMode 1000) (fun _ => (0 : Int))).2 =
      [str ("trick.var_set_copy_mode(100)\n")] ∧
    (runOp (Op.setCopyMode 1000) (fun _ => (0 : Int))).2 ≠
      [specTemplate (Op.setCopyMode 1000) ++ str ("\n")] := by
  refine ⟨rfl, rfl, ?_⟩
  decide

/-- Claim C1 (amended): for every command-building operation whose
    numeric arguments render in decimal within their snprintf scratch
    buffers (3 characters for set-copy-mode, 63 for set-debug-level, 127
    for the formatted update period), every run reporting success handed
    the transport exactly the documented wire template with the
    arguments substituted verbatim terminated by exactly one newline;
    and arguments whose assembled command exceeds the bound are rejected
    with no write rather than truncated. -/
theorem C1_wire_faithful (op : Op) (tr : CStr → Int)
    (hfit : rendersFitB op = true) :
    ((runOp op tr).1 = 0 →
       (runOp op tr).2 = [specTemplate op ++ str ("\n")]) ∧
    (opOkB op = false → runOp op tr = ((-1 : Int), [])) := by
  constructor
  · intro hsucc
    by_cases hok : opOkB op = true
    · rw [runOp_char op tr, if_pos hok]
      show [opWire op] = [specTemplate op ++ str ("\n")]
      rw [opWire_eq_template op hfit]
    · rw [runOp_char op tr, if_neg hok] at hsucc
      exact absurd hsucc (by decide)
  · intro hko
    rw [runOp_char op tr, hko, if_neg Bool.false_ne_true]

/-- Claim C1, witness: the amended theorem applied to add-variable with
    the one-character name x on an always-succeeding transport. -/
theorem C1_wire_faithful_witness :
    (runOp (Op.addVariable (str ("x"))) (fun _ => (0 : Int))).2 =
      [specTemplate (Op.addVariable (str ("x"))) ++ str ("\n")] :=
  (C1_wire_faithful (Op.addVariable (str ("x"))) (fun _ => (0 : Int))
    rfl).1 (by decide)

/-- Claim C2 (code bug in the source): on a transport whose send fails,
    close returns -1 and the source performs no teardown at all (no
    operating-system close is in scope in the translation unit, see the
    doc comment on close); on a transport whose sends succeed, close
    recurses into itself, re-sending trick.var_exit() once per level and
    never reaching any teardown or any return. -/
theorem C2_close_behavior :
    close (fun _ => (-1 : Int)) 1 =
      (some (-1 : Int), [str ("trick.var_exit()\n")]) ∧
    close (fun _ => (1 : Int)) 3 =
      (none, List.replicate 3 (str ("trick.var_exit()\n"))) :=
  ⟨rfl, rfl⟩

/-- Claim C3, counterexample: a text of exactly 511 characters is within
    the claimed bound (length + 1 does not exceed 512), yet the raw send
    rejects it locally with no write, because the source's guard demands
    room for the newline and the NUL terminator (length + 2). -/
theorem C3_counterexample :
    (List.replicate 511 'a').length = 511 ∧
    send_command_to_variable_server (fun s => ((s.length : Int)))
        (List.replicate 511 'a') = ((-1 : Int), []) := by
  constructor
  · rw [List.length_replicate]
  · exact send_command_fail _ _ (by rw [List.length_replicate])

/-- Claim C3 (amended): the raw send fails exactly when length(text) + 2
    exceeds the 512-byte command buffer (newline plus NUL terminator
    must fit): every text of at most 510 characters is attempted as one
    write of text plus newline, every longer text fails locally with no
    write, and when the transport reports a full write the call returns
    the number of bytes written, length(text) + 1. -/
theorem C3_raw_send_bounds (t : CStr) (tr : CStr → Int) :
    (t.length + 2 ≤ 512 →
       send_command_to_variable_server tr t =
         (tr (t ++ str ("\n")), [t ++ str ("\n")])) ∧
    (512 < t.length + 2 →
       send_command_to_variable_server tr t = ((-1 : Int), [])) ∧
    (t.length + 2 ≤ 512 →
       tr (t ++ str ("\n")) = ((t.length : Int) + 1) →
       (send_command_to_variable_server tr t).1 = ((t.length : Int) + 1)) := by
  refine ⟨fun h => send_command_ok tr t (by omega),
          fun h => send_command_fail tr t (by omega),
          fun h hw => ?_⟩
  rw [send_command_ok tr t (by omega)]
  exact hw

/-- Claim C3, witness: the amended theorem applied to the two-character
    text hi on a transport that reports a full write. -/
theorem C3_raw_send_bounds_witness :
    (send_command_to_variable_server (fun s => ((s.length : Int)))
        (str ("hi"))).1 = (((str ("hi")).length : Int) + 1) :=
  (C3_raw_send_bounds (str ("hi")) (fun s => ((s.length : Int)))).2.2
    (by decide) (by decide)

/-- Claim C4 (confirmed): whenever the documented template with the
    arguments substituted, plus the newline, would exceed the 512-byte
    command bound, the operation fails and hands the transport nothing:
    the command is rejected before any I/O, never partially sent.  The
    renderability hypothesis only pins the numeric arguments of the
    model to renderings attainable from the C types int and double. -/
theorem C4_oversized_rejected (op : Op) (tr : CStr → Int)
    (hren : argsRenderableB op = true)
    (hover : 512 < (specTemplate op).length + 1) :
    runOp op tr = ((-1 : Int), []) := by
  rw [runOp_char op tr]
  cases op with
  | setAscii => exact absurd hover (by decide)
  | setBinary => exact absurd hover (by decide)
  | setBinaryNoNames => exact absurd hover (by decide)
  | setSync => exact absurd hover (by decide)
  | opPause => exact absurd hover (by decide)
  | opUnpause => exact absurd hover (by decide)
  | opClear => exact absurd hover (by decide)
  | opPoll => exact absurd hover (by decide)
  | opRun => exact absurd hover (by decide)
  | opFreeze => exact absurd hover (by decide)
  | addVariable name =>
      simp only [specTemplate, List.length_append, nsAdd_length,
        quoteSuf_length] at hover
      rw [if_neg (by simp only [opOkB, decide_eq_true_eq]; omega)]
  | addVariableWithUnits name units =>
      simp only [specTemplate, List.length_append, nsAdd_length,
        unitsMid_length, quoteSuf_length] at hover
      rw [if_neg (by simp only [opOkB, decide_eq_true_eq]; omega)]
  | removeVariable name =>
      simp only [specTemplate, List.length_append, nsRemove_length,
        quoteSuf_length] at hover
      rw [if_neg (by simp only [opOkB, decide_eq_true_eq]; omega)]
  | setClientTag tag =>
      simp only [specTemplate, List.length_append, nsTag_length,
        quoteSuf_length] at hover
      rw [if_neg (by simp only [opOkB, decide_eq_true_eq]; omega)]
  | setCycle perRendered =>
      simp only [argsRenderableB, decide_eq_true_eq] at hren
      simp only [specTemplate, List.length_append, nsCycle_length,
        parenSuf_length] at hover
      exact absurd hover (by omega)
  | setCopyMode mode =>
      simp only [argsRenderableB, decide_eq_true_eq] at hren
      simp only [specTemplate, List.length_append, nsCopyMode_length,
        parenSuf_length] at hover
      exact absurd hover (by omega)
  | setDebugLevel level =>
      simp only [argsRenderableB, decide_eq_true_eq] at hren
      simp only [specTemplate, List.length_append, nsDebug_length,
        parenSuf_length] at hover
      exact absurd hover (by omega)
  | setValidateAddresses validate =>
      by_cases hv : 0 < validate
      · simp only [specTemplate, if_pos hv] at hover
        exact absurd hover (by decide)
      · simp only [specTemplate, if_neg hv] at hover
        exact absurd hover (by decide)
  | setRealTime enabled =>
      by_cases hv : 0 < enabled
      · simp only [specTemplate, if_pos hv] at hover
        exact absurd hover (by decide)
      · simp only [specTemplate, if_neg hv] at hover
        exact absurd hover (by decide)

/-- Claim C4, witness: add-variable with a 500-character name exceeds the
    bound and is rejected with zero writes. -/
theorem C4_oversized_rejected_witness :
    runOp (Op.addVariable (List.replicate 500 'a'))
      (fun _ => (0 : Int)) = ((-1 : Int), []) :=
  C4_oversized_rejected (Op.addVariable (List.replicate 500 'a'))
    (fun _ => (0 : Int)) rfl
    (by simp only [specTemplate, List.length_append, nsAdd_length,
          quoteSuf_length, List.length_replicate]; omega)

/-- Claim C5 (confirmed): for every text the raw send accepts (at most
    510 characters), it appends exactly one newline - unconditionally,
    with no inspection of the text's own trailing characters - and hands
    the entire resulting byte sequence to the transport in a single
    write. -/
theorem C5_newline_always_appended (t : CStr) (tr : CStr → Int)
    (h : t.length ≤ 510) :
    send_command_to_variable_server tr t =
      (tr (t ++ str ("\n")), [t ++ str ("\n")]) ∧
    (t ++ str ("\n")).length = t.length + 1 :=
  ⟨send_command_ok tr t h, by simp [str]⟩

/-- Claim C5, witness: a text that already ends in a newline still gets
    one more appended, producing a double newline on the wire. -/
theorem C5_newline_always_appended_witness :
    send_command_to_variable_server (fun _ => (0 : Int)) (str ("a\n")) =
      ((0 : Int), [str ("a\n\n")]) ∧
    (str ("a\n\n")).length = (str ("a\n")).length + 1 := by
  have h := C5_newline_always_appended (str ("a\n")) (fun _ => (0 : Int))
    (by decide)
  exact ⟨h.1, h.2⟩

/-- Claim C6 (confirmed): add-variable with name dyn.baseball.pos[0]
    performs exactly one transport write, whose byte content is
    trick.var_add("dyn.baseball.pos[0]") followed by a single newline,
    whatever the transport's outcome. -/
theorem C6_add_variable_example (tr : CStr → Int) :
    (add_variable_to_server tr (str ("dyn.baseball.pos[0]"))).2 =
      [str ("trick.var_add(\"dyn.baseball.pos[0]\")\n")] := rfl

/-- Claim C7 (confirmed): the receive wrapper forwards one recv call:
    the result never exceeds max_length, at most max_length bytes land
    in the buffer, 0 is returned exactly on orderly peer shutdown, a
    transport error returns -1, and in the data case the returned count
    is the number of bytes placed in the buffer.  The two hypotheses
    exclude the blocking call (pending data empty without shutdown) and
    the degenerate zero-length read, neither of which this single-call
    model covers. -/
theorem C7_receive_contract (outcome : RecvOutcome) (lenght : Nat)
    (flags : Int) (hblock : outcome ≠ RecvOutcome.data [])
    (hpos : 0 < lenght) :
    (receive_message_from_variable_server outcome lenght flags).1 ≤
      (lenght : Int) ∧
    (receive_message_from_variable_server outcome lenght flags).2.length ≤
      lenght ∧
    ((receive_message_from_variable_server outcome lenght flags).1 = 0 ↔
      outcome = RecvOutcome.orderlyShutdown) ∧
    (∀ e, outcome = RecvOutcome.transportError e →
      (receive_message_from_variable_server outcome lenght flags).1 = -1) ∧
    (∀ bytes, outcome = RecvOutcome.data bytes →
      (receive_message_from_variable_server outcome lenght flags).1 =
        (((receive_message_from_variable_server outcome lenght flags).2.length
          : Int))) := by
  cases outcome with
  | data bytes =>
      simp only [receive_message_from_variable_server, recvModel]
      have hb : bytes ≠ [] := by
        intro hcon
        exact hblock (by rw [hcon])
      have hbl : 0 < bytes.length := List.length_pos.mpr hb
      refine ⟨?_, ?_, ?_, ?_, ?_⟩
      · exact_mod_cast (by rw [List.length_take]; omega :
          (bytes.take lenght).length ≤ lenght)
      · rw [List.length_take]; omega
      · constructor
        · intro h0
          exfalso
          have h1 : (bytes.take lenght).length = 0 := by exact_mod_cast h0
          rw [List.length_take] at h1
          omega
        · intro hcon
          exact RecvOutcome.noConfusion hcon
      · intro e hcon
        exact RecvOutcome.noConfusion hcon
      · intro bs hcon
        trivial
  | orderlyShutdown =>
      simp only [receive_message_from_variable_server, recvModel]
      refine ⟨?_, ?_, ?_, ?_, ?_⟩
      · exact_mod_cast lenght.zero_le
      · simp
      · simp
      · intro e hcon
        exact RecvOutcome.noConfusion hcon
      · intro bs hcon
        exact RecvOutcome.noConfusion hcon
  | transportError e =>
      simp only [receive_message_from_variable_server, recvModel]
      have h0 : (0 : Int) ≤ (lenght : Int) := by exact_mod_cast lenght.zero_le
      refine ⟨by omega, by simp, ?_, ?_, ?_⟩
      · constructor
        · intro hcon
          exact absurd hcon (by norm_num)
        · intro hcon
          exact RecvOutcome.noConfusion hcon
      · intro e2 hcon
        trivial
      · intro bs hcon
        exact RecvOutcome.noConfusion hcon

/-- Claim C7, witness: two pending bytes read with max_length 1 return
    count 1. -/
theorem C7_receive_contract_witness :
    (receive_message_from_variable_server (RecvOutcome.data (str ("xy")))
      1 0).1 ≤ (1 : Int) :=
  (C7_receive_contract (RecvOutcome.data (str ("xy"))) 1 0 (by decide)
    (by decide)).1

/-- Claim C8 (confirmed): repeated calls to clear produce the identical
    fixed wire line each time, and, for every operation, the wire output
    is a function of the operation and its arguments alone - two runs
    against different transport states hand over the same byte strings,
    there being no global or hidden state in the translation unit. -/
theorem C8_clear_idempotent_and_pure :
    (∀ (tr : CStr → Int) (n : Nat),
       iterWrites clear tr n =
         List.replicate n (str ("trick.var_clear()\n"))) ∧
    (∀ (op : Op) (trA trB : CStr → Int),
       (runOp op trA).2 = (runOp op trB).2) := by
  constructor
  · intro tr n
    induction n with
    | zero => rfl
    | succ k ih =>
        simp only [iterWrites, ih, clear_char]
        rw [List.replicate_succ]
        rfl
  · intro op trA trB
    rw [runOp_char op trA, runOp_char op trB]
    by_cases hok : opOkB op = true
    · rw [if_pos hok, if_pos hok]
    · rw [if_neg hok, if_neg hok]

/-- Claim C9 (confirmed): whenever every send succeeds, close never
    terminates: with any recursion budget it sends trick.var_exit() once
    per level (two or more times as soon as the budget allows) and
    exhausts the budget without returning, because the call on line 557
    is self-recursion, not an operating-system teardown. -/
theorem C9_close_diverges (fuel : Nat) (tr : CStr → Int)
    (h : ∀ s, 0 ≤ tr s) :
    close tr fuel =
      (none, List.replicate fuel (str ("trick.var_exit()\n"))) := by
  induction fuel with
  | zero => rfl
  | succ k ih =>
      simp only [close]
      rw [send_command_ok tr (str ("trick.var_exit()")) (by decide)]
      dsimp only
      rw [if_neg (not_lt.mpr (h _))]
      rw [ih, List.replicate_succ]
      rfl

/-- Claim C9, witness: with budget 2 on an always-succeeding transport,
    a single call to close transmits the exit command twice and does not
    return. -/
theorem C9_close_diverges_witness :
    close (fun _ => (0 : Int)) 2 =
      (none, List.replicate 2 (str ("trick.var_exit()\n"))) :=
  C9_close_diverges 2 (fun _ => (0 : Int)) (fun _ => le_refl 0)

/-- Claim C10 (confirmed): the flag operations test the sign, not
    equality with 0 or 1: set_validate_addresses puts True on the wire
    exactly when validate is positive and False for every other value,
    negatives included, and set_real_time likewise chooses enable
    exactly when enabled is positive. -/
theorem C10_sign_tokens (validate enabled : Int) (trA trB : CStr → Int) :
    (set_validate_addresses trA validate).2 =
      [if 0 < validate then str ("trick.var_validate_address(True)\n")
       else str ("trick.var_validate_address(False)\n")] ∧
    (set_real_time trB enabled).2 =
      [if 0 < enabled then str ("trick.real_time_enable()\n")
       else str ("trick.real_time_disable()\n")] := by
  constructor
  · rw [set_validate_addresses_char]
    rfl
  · rw [set_real_time_char]
    rfl

end TVS
